import Mathlib

set_option maxHeartbeats 1000000
set_option maxRecDepth 100000

/-!
Shallow embedding of `src/main.rs` of dgmd-notice-rss: a single-pass
notice-board scraper.  Machine integers (`i32`) are modelled as `Int` with the
`[-2^31, 2^31-1]` range enforced where the code parses them; fallible
operations (Rust `unwrap`/`assert!` panics) are modelled with `Option`, `none`
standing for an aborted run.
-/

/-- Notice record, one row of the board listing (`struct Notice`). -/
structure Notice where
  index : Int
  title : String
  author : String
  category : String
  link : String
  expired_at : String
deriving Repr, DecidableEq

/-! ### htmlescape::encode_minimal

The `htmlescape` crate's `encode_minimal` replaces the five characters
`"` `&` `'` `<` `>` by `&quot;` `&amp;` `&#x27;` `&lt;` `&gt;` and leaves
every other character unchanged. -/

/-- Entity encoding of a single character, as `encode_minimal` does. -/
def encode_char (c : Char) : List Char :=
  if c = '"' then ['&', 'q', 'u', 'o', 't', ';']
  else if c = '&' then ['&', 'a', 'm', 'p', ';']
  else if c = '\'' then ['&', '#', 'x', '2', '7', ';']
  else if c = '<' then ['&', 'l', 't', ';']
  else if c = '>' then ['&', 'g', 't', ';']
  else [c]

/-- Entity encoding of a character list, character by character. -/
def encode_chars : List Char → List Char
  | [] => []
  | c :: rest => encode_char c ++ encode_chars rest

/-- Model of `htmlescape::encode_minimal`. -/
def encode_minimal (s : String) : String := ⟨encode_chars s.data⟩

/-! ### Extractor (`parse_text`, `parse_attr`, `parse_html`)

The `scraper` crate's CSS selection is abstracted: a `RawRow` holds, for one
`<tr>` of the board table, the text fragments selected for each field and the
`href` attribute values of the matched title anchors, exactly the streams the
Rust code folds over. -/

/-- Model of Rust `str::trim`: drop whitespace from both ends. -/
def rust_trim (s : String) : String :=
  ⟨((s.data.dropWhile Char.isWhitespace).reverse.dropWhile Char.isWhitespace).reverse⟩

/-- Per-fragment normalization in `parse_text`:
`datum.trim().replace(chars 10 and 9, "")` (trim, then remove embedded
newline/tab characters). -/
def clean_fragment (s : String) : String :=
  ⟨(rust_trim s).data.filter (fun c => !(c == '\n' || c == '\t'))⟩

/-- Model of `parse_text`: normalize each selected text fragment, drop the
ones that became empty, join the survivors with a single space. -/
def parse_text (frags : List String) : String :=
  String.intercalate " " ((frags.map clean_fragment).filter (fun d => !d.isEmpty))

/-- Model of `parse_attr`: the first `href` attribute found, or `""`. -/
def parse_attr (hrefs : List String) : String :=
  (hrefs.head?).getD ""

/-- Numeric value of a digit list (most significant first). -/
def digits_val (l : List Char) : Nat :=
  l.foldl (fun a c => a * 10 + (c.toNat - 48)) 0

/-- Model of Rust `str::parse::<i32>`: an optional sign, then one or more
ASCII digits, value within the `i32` range; anything else is `none`. -/
def parseI32 (s : String) : Option Int :=
  let split : Int × List Char :=
    match s.data with
    | '+' :: rest => (1, rest)
    | '-' :: rest => (-1, rest)
    | l => (1, l)
  if split.2.isEmpty then none
  else if split.2.all (fun c => c.isDigit) then
    let v : Int := split.1 * (digits_val split.2 : Int)
    if -(2 ^ 31) ≤ v ∧ v ≤ 2 ^ 31 - 1 then some v else none
  else none

/-- Selector results for one board-table row: text fragments selected by
`td.b-num-box` (index), `td.b-num-box + td` (category),
`td.b-td-left > div.b-title-box > a` (title and link anchors),
`td.b-no-right + td` (author), `td.b-no-right + td + td` (expiration). -/
structure RawRow where
  index_frags : List String
  category_frags : List String
  title_frags : List String
  link_hrefs : List String
  author_frags : List String
  expired_at_frags : List String
deriving Repr, DecidableEq

/-- Body of the per-row closure in `parse_html`: build one `Notice` from the
row's selector results. -/
def parse_row (base_url : String) (row : RawRow) : Notice :=
  { index := (parseI32 (parse_text row.index_frags)).getD (-1)
    category := encode_minimal (parse_text row.category_frags)
    title := encode_minimal (parse_text row.title_frags)
    author := encode_minimal (parse_text row.author_frags)
    link := encode_minimal (base_url ++ parse_attr row.link_hrefs)
    expired_at := encode_minimal (parse_text row.expired_at_frags) }

/-- Model of `parse_html`: one `Notice` per selected row, in document order. -/
def parse_html (base_url : String) (rows : List RawRow) : List Notice :=
  rows.map (parse_row base_url)

/-! ### Renderers -/

/-- Synthesized description shared by the XML and Markdown renderers. -/
def notice_description (n : Notice) : String :=
  "[" ++ n.category ++ "] - " ++ n.author ++ " (~" ++ n.expired_at ++ ")"

/-- Constant part of the XML channel header up to the point where
`Utc::now().to_rfc2822()` is interpolated. -/
def xml_header_head : String :=
  "<rss version=\"2.0\">\n <channel>\n <title>Ajou University Department of Digital Media Notices</title>\n <link>https://media.ajou.ac.kr/media/board/board01.jsp</link>\n <description>Recently published notices</description>\n <language>ko-kr</language>\n <lastBuildDate>"

/-- XML channel header; `now` stands for the interpolated render-time
timestamp. -/
def xml_header (now : String) : String :=
  xml_header_head ++ now ++ "</lastBuildDate>"

/-- XML footer literal. -/
def xml_footer : String := "</channel>\n </rss>"

/-- One `<item>` block of the XML renderer. -/
def xml_item (n : Notice) : String :=
  "<item>\n <title>" ++ n.title ++ "</title>\n <link>" ++ n.link ++ "</link>\n <description>" ++ notice_description n ++ "</description>\n </item>"

/-- Model of `compose_xml`; the render-time timestamp is passed explicitly
(`Utc::now().to_rfc2822()` in the Rust code). -/
def compose_xml (now : String) (notices : List Notice) : String :=
  xml_header now ++ "\n" ++ String.intercalate "\n" (notices.map xml_item) ++ "\n" ++ xml_footer

/-- One bullet of the Markdown renderer.  The raw Rust string
`r"* **[{}]({})**\n  {}"` contains a literal backslash-n, so the separator
inside a bullet is the two characters `\` `n` followed by two spaces. -/
def md_item (n : Notice) : String :=
  "* **[" ++ (if n.index = -1 then "📌 " ++ n.title else n.title) ++ "](" ++ n.link ++ ")**\\n  " ++ notice_description n

/-- Model of `compose_md`; the joiners are raw strings, so every `\n` below
is the two literal characters backslash and `n`. -/
def compose_md (notices : List Notice) : String :=
  "# 미디어학과 최근 공지사항" ++ "\\n\\n" ++ String.intercalate "\\n\\n" (notices.map md_item)

/-- One bullet of the commit-message renderer. -/
def cm_item (n : Notice) : String := "* " ++ n.title

/-- Model of `compose_commit_message`. -/
def compose_commit_message (notices : List Notice) (new_count : Int) : String :=
  "dist: " ++ toString new_count ++ "개의 새 공지사항" ++ "\n\n" ++ String.intercalate "\n" (notices.map cm_item)

/-! ### Fetcher -/

/-- Abstract outcome of the one HTTP exchange in `fetch_html`: client
construction failure, send failure, or a response with a final status code, a
flag telling whether the body is decodable text, and the body. -/
inductive HttpOutcome where
  | clientError : HttpOutcome
  | netError : HttpOutcome
  | response (status : Nat) (decodable : Bool) (body : String) : HttpOutcome
deriving Repr, DecidableEq

/-- Model of `http::StatusCode::is_success`, the predicate behind
`assert!(res.status().is_success())`: true exactly for 200..=299. -/
def status_is_success (status : Nat) : Bool :=
  200 ≤ status && status ≤ 299

/-- Model of `fetch_html` after URL construction: `none` is a panic
(`unwrap` on the client or on `send`, the status `assert!`, or `unwrap` on
`text()`), `some` the returned HTML body. -/
def fetch_html (outcome : HttpOutcome) : Option String :=
  match outcome with
  | .clientError => none
  | .netError => none
  | .response status decodable body =>
    if status_is_success status then (if decodable then some body else none) else none

/-- URL built by `fetch_html` from the base URL and the pagination query. -/
def request_url (base_url : String) (limit offset : Nat) : String :=
  base_url ++ "?mode=list&articleLimit=" ++ toString limit ++ "&article.offset=" ++ toString offset

/-! ### Driver (`main`) -/

/-- Observable effects of one run past argument handling and fetching:
what is printed on stdout (`println!` appends a newline), what is printed on
stderr, and the integer written to the `last_index` file, if any. -/
structure RunOutput where
  stdout : Option String
  stderr : Option String
  file_write : Option Int
deriving Repr, DecidableEq

/-- The `latest_index` computation in `main`: index of the first notice whose
index is not the `-1` sentinel; `none` models the `unwrap` panic when no such
notice exists. -/
def latest_index (notices : List Notice) : Option Int :=
  ((notices.filter (fun n => n.index != -1)).head?).map Notice.index

/-- Wrapping `i32` subtraction: the release-profile semantics of
`latest_index - last_index` in `main`'s `cm` arm.  The result is reduced into
`[-2^31, 2^31)`; when the mathematical difference is already in `i32` range it
is returned unchanged.  (A debug build would panic on overflow instead of
wrapping.) -/
def i32_sub (a b : Int) : Int :=
  (a - b + 2 ^ 31) % 2 ^ 32 - 2 ^ 31

/-- Driver logic of `main` after the fetch and parse: compare the supplied
previous index with `latest_index`, dispatch on the mode string, and write
the watermark file in the branch that detects a change.  The commit-message
count is the `i32` difference `latest_index - last_index`. -/
def run_driver (last_index : Int) (mode now : String) (notices : List Notice) : Option RunOutput :=
  match latest_index notices with
  | none => none
  | some latest =>
    if last_index ≠ latest then
      if mode = "xml" then
        some { stdout := some (compose_xml now notices ++ "\n"), stderr := none, file_write := some latest }
      else if mode = "md" then
        some { stdout := some (compose_md notices ++ "\n"), stderr := none, file_write := some latest }
      else if mode = "cm" then
        some { stdout := some (compose_commit_message notices (i32_sub latest last_index) ++ "\n"), stderr := none, file_write := some latest }
      else
        some { stdout := none, stderr := some ("unknown mode '" ++ mode ++ "'\n"), file_write := some latest }
    else
      some { stdout := none, stderr := some "new notices not found\n", file_write := none }

/-- Argument handling of `main`: `args[1].parse::<i32>().unwrap()` (panic on
a missing or unparseable previous index) and `args[2]` (panic when absent;
`parse::<String>()` is infallible, so the `unwrap_or_else` default `"xml"`
is never taken).  `none` models a panic. -/
def parse_args (args : List String) : Option (Int × String) :=
  match args[1]? with
  | none => none
  | some a =>
    match parseI32 a with
    | none => none
    | some last =>
      match args[2]? with
      | none => none
      | some mode => some (last, mode)

/-- Content written to the `last_index` file by `write_last_index`. -/
def write_last_index_content (last_index : Int) : String := toString last_index

/-! ### Auxiliary definitions used in concrete evaluations -/

/-- Base URL constant of `main`. -/
def sample_base : String := "http://media.ajou.ac.kr/media/board/notice.do"

/-- Sample non-pinned notice with index 6. -/
def sample_a : Notice :=
  { index := 6, title := "A", author := "a1", category := "c1", link := "l1", expired_at := "e1" }

/-- Sample non-pinned notice with index 5. -/
def sample_b : Notice :=
  { index := 5, title := "B", author := "a2", category := "c2", link := "l2", expired_at := "e2" }

/-- Sample non-pinned notice with index 50. -/
def sample_c : Notice :=
  { index := 50, title := "C", author := "a3", category := "c3", link := "l3", expired_at := "e3" }

/-- Sample non-pinned notice with index 7. -/
def sample_d : Notice :=
  { index := 7, title := "D", author := "a4", category := "c4", link := "l4", expired_at := "e4" }

/-- Sample pinned row: its index cell holds the pinned marker text, which does
not parse as an integer. -/
def sample_row : RawRow :=
  { index_frags := ["공지"], category_frags := ["학사"], title_frags := ["Insight <2024>"]
    link_hrefs := ["?mode=view&articleNo=1"], author_frags := ["미디어학과"]
    expired_at_frags := ["2024-12-31"] }

/-- Observable output of the run on watermark 100 over `[sample_c]` in mode
`md`. -/
def run_out_c : RunOutput :=
  { stdout := some (compose_md [sample_c] ++ "\n"), stderr := none, file_write := some 50 }

/-- Everything of the XML output that follows the interpolated timestamp:
a pure function of the notice list. -/
def xml_tail (notices : List Notice) : String :=
  "</lastBuildDate>" ++ "\n" ++ String.intercalate "\n" (notices.map xml_item) ++ "\n" ++ xml_footer

/-- Discipline of an entity-escaped character list: no `<`, no `>`, and every
`&` occurs only as the first character of one of the five entities emitted by
`encode_minimal` (`&amp;` `&lt;` `&gt;` `&quot;` `&#x27;`). -/
inductive EscapedChunks : List Char → Prop where
  | nil : EscapedChunks []
  | safe (c : Char) (l : List Char) (h1 : c ≠ '<') (h2 : c ≠ '>') (h3 : c ≠ '&')
      (h : EscapedChunks l) : EscapedChunks (c :: l)
  | amp (l : List Char) (h : EscapedChunks l) :
      EscapedChunks ('&' :: 'a' :: 'm' :: 'p' :: ';' :: l)
  | lt (l : List Char) (h : EscapedChunks l) :
      EscapedChunks ('&' :: 'l' :: 't' :: ';' :: l)
  | gt (l : List Char) (h : EscapedChunks l) :
      EscapedChunks ('&' :: 'g' :: 't' :: ';' :: l)
  | quo (l : List Char) (h : EscapedChunks l) :
      EscapedChunks ('&' :: 'q' :: 'u' :: 'o' :: 't' :: ';' :: l)
  | apos (l : List Char) (h : EscapedChunks l) :
      EscapedChunks ('&' :: '#' :: 'x' :: '2' :: '7' :: ';' :: l)

/-! ### Helper lemmas -/

theorem string_data_append (a b : String) : (a ++ b).data = a.data ++ b.data := rfl

theorem string_data_inj {a b : String} (h : a.data = b.data) : a = b := by
  cases a
  cases b
  exact congrArg String.mk h

theorem string_append_assoc (a b c : String) : a ++ b ++ c = a ++ (b ++ c) :=
  string_data_inj (by simp [string_data_append, List.append_assoc])

theorem escapedChunks_no_raw {l : List Char} (h : EscapedChunks l) :
    '<' ∉ l ∧ '>' ∉ l := by
  induction h with
  | nil => simp
  | safe c l h1 h2 h3 h ih =>
    constructor
    · intro hm
      rcases List.mem_cons.mp hm with hh | hh
      · exact h1 hh.symm
      · exact ih.1 hh
    · intro hm
      rcases List.mem_cons.mp hm with hh | hh
      · exact h2 hh.symm
      · exact ih.2 hh
  | amp l h ih => simp [List.mem_cons, ih.1, ih.2]
  | lt l h ih => simp [List.mem_cons, ih.1, ih.2]
  | gt l h ih => simp [List.mem_cons, ih.1, ih.2]
  | quo l h ih => simp [List.mem_cons, ih.1, ih.2]
  | apos l h ih => simp [List.mem_cons, ih.1, ih.2]

theorem escapedChunks_encode_chars (l : List Char) : EscapedChunks (encode_chars l) := by
  induction l with
  | nil => exact .nil
  | cons c rest ih =>
    show EscapedChunks (encode_char c ++ encode_chars rest)
    by_cases h1 : c = '"'
    · simp [encode_char, h1]
      exact .quo _ ih
    · by_cases h2 : c = '&'
      · simp [encode_char, h1, h2]
        exact .amp _ ih
      · by_cases h3 : c = '\''
        · simp [encode_char, h1, h2, h3]
          exact .apos _ ih
        · by_cases h4 : c = '<'
          · simp [encode_char, h1, h2, h3, h4]
            exact .lt _ ih
          · by_cases h5 : c = '>'
            · simp [encode_char, h1, h2, h3, h4, h5]
              exact .gt _ ih
            · simp [encode_char, h1, h2, h3, h4, h5]
              exact .safe c _ h4 h5 h2 ih

theorem encode_minimal_escaped (s : String) : EscapedChunks (encode_minimal s).data :=
  escapedChunks_encode_chars s.data

theorem run_driver_file_write (last : Int) (mode now : String) (ns : List Notice) (v : Int)
    (hl : latest_index ns = some v) (hv : last ≠ v) :
    (run_driver last mode now ns).map RunOutput.file_write = some (some v) := by
  unfold run_driver
  rw [hl]
  by_cases h1 : mode = "xml" <;> by_cases h2 : mode = "md" <;> by_cases h3 : mode = "cm" <;>
    simp [hv, h1, h2, h3]

/-! ### Claim theorems -/

/-- C1 (amended): the watermark file is written exactly when the latest
non-pinned index differs from the supplied previous watermark, and the value
written is that latest index — which may be smaller than the previous
watermark. -/
theorem C1_watermark_write (last : Int) (mode now : String) (ns : List Notice)
    (out : RunOutput) (h : run_driver last mode now ns = some out) :
    out.file_write = if latest_index ns = some last then none else latest_index ns := by
  cases hl : latest_index ns with
  | none =>
    unfold run_driver at h
    rw [hl] at h
    cases h
  | some v =>
    by_cases hv : last = v
    · subst hv
      unfold run_driver at h
      rw [hl] at h
      simp only [ne_eq, not_true_eq_false, if_false, Option.some.injEq] at h
      rw [if_pos rfl, ← h]
    · have hfw := run_driver_file_write last mode now ns v hl hv
      rw [h] at hfw
      simp at hfw
      have hne : ¬ ((some v : Option Int) = some last) := by
        simp only [Option.some.injEq]
        exact fun e => hv e.symm
      rw [if_neg hne]
      exact hfw

/-- Witness for C1: concrete run with previous watermark 100 over a page
whose latest non-pinned index is 50. -/
theorem C1_watermark_write_witness :
    run_driver 100 "md" "now" [sample_c] = some run_out_c ∧
    run_out_c.file_write =
      (if latest_index [sample_c] = some 100 then none else latest_index [sample_c]) :=
  ⟨by decide, C1_watermark_write 100 "md" "now" [sample_c] run_out_c (by decide)⟩

/-- C1 (counterexample): a run that writes the watermark file can write a
value strictly below the previously supplied watermark — here previous
watermark 100, written value 50 — refuting "the value written is greater
than or equal to the previously supplied watermark argument". -/
theorem C1_watermark_decrement :
    (run_driver 100 "md" "now" [sample_c]).map RunOutput.file_write = some (some 50) ∧
    (50 : Int) < 100 := by decide

/-- C2 (code bug, evaluation): argument handling panics when the mode
argument is absent (`parse_args` yields `none` on a two-element argv even
though the previous-index argument parses), instead of defaulting the mode
to `"xml"`; a missing or unparseable previous index is indeed fatal, and a
supplied mode is passed through verbatim. -/
theorem C2_mode_argument_required :
    parse_args ["dgmd-notice-rss"] = none ∧
    parse_args ["dgmd-notice-rss", "abc"] = none ∧
    parse_args ["dgmd-notice-rss", "5"] = none ∧
    parseI32 "5" = some 5 ∧
    parse_args ["dgmd-notice-rss", "5", "md"] = some (5, "md") := by decide

/-- C3: when the latest non-pinned index equals the supplied previous
watermark, the driver reaches UNCHANGED: it prints the diagnostic on stderr,
prints nothing on stdout, and does not touch the watermark file. -/
theorem C3_unchanged_frame (last : Int) (mode now : String) (ns : List Notice)
    (h : latest_index ns = some last) :
    run_driver last mode now ns =
      some { stdout := none, stderr := some "new notices not found\n", file_write := none } := by
  unfold run_driver
  rw [h]
  simp

/-- Witness for C3: a concrete page whose latest non-pinned index equals the
supplied watermark 7. -/
theorem C3_unchanged_frame_witness :
    latest_index [sample_d] = some 7 ∧
    run_driver 7 "xml" "now" [sample_d] =
      some { stdout := none, stderr := some "new notices not found\n", file_write := none } :=
  ⟨by decide, C3_unchanged_frame 7 "xml" "now" [sample_d] (by decide)⟩

/-- C4: when new notices are detected but the mode is none of `xml`, `md`,
`cm`, the driver prints the unknown-mode diagnostic on stderr, prints no
rendered document on stdout, and still writes the latest index to the
watermark file. -/
theorem C4_unknown_mode (last v : Int) (mode now : String) (ns : List Notice)
    (hl : latest_index ns = some v) (hne : last ≠ v)
    (h1 : mode ≠ "xml") (h2 : mode ≠ "md") (h3 : mode ≠ "cm") :
    run_driver last mode now ns =
      some { stdout := none, stderr := some ("unknown mode '" ++ mode ++ "'\n"),
             file_write := some v } := by
  unfold run_driver
  rw [hl]
  simp [hne, h1, h2, h3]

/-- Witness for C4: concrete run with watermark 3, latest index 7 and the
unrecognized mode `"html"`. -/
theorem C4_unknown_mode_witness :
    latest_index [sample_d] = some 7 ∧
    run_driver 3 "html" "now" [sample_d] =
      some { stdout := none, stderr := some ("unknown mode '" ++ "html" ++ "'\n"),
             file_write := some 7 } :=
  ⟨by decide,
   C4_unknown_mode 3 7 "html" "now" [sample_d] (by decide) (by decide)
     (by decide) (by decide) (by decide)⟩

/-- C5 (counterexample): a response whose status at the status check is 3xx
(here 304, which the HTTP client does not auto-follow) fails the run even
with a decodable body, refuting "for every response with a 3xx redirect
status the run does not fail at the status check". -/
theorem C5_3xx_fails_status_check :
    fetch_html (.response 304 true "<html></html>") = none ∧
    status_is_success 304 = false ∧ 300 ≤ 304 ∧ 304 ≤ 399 := by decide

/-- C5 (amended): the fetch fails exactly on TLS/client construction
failure, network error, a final HTTP status outside 200..=299 (so any 3xx
status reaching the check fails it), or a non-decodable body; it returns the
body exactly when the status is 2xx and the body decodes. -/
theorem C5_fetch_failure_cases (status : Nat) (decodable : Bool) (body : String) :
    fetch_html .clientError = none ∧
    fetch_html .netError = none ∧
    (fetch_html (.response status decodable body) = some body ↔
      (200 ≤ status ∧ status ≤ 299 ∧ decodable = true)) ∧
    (fetch_html (.response status decodable body) = none ↔
      (¬ (200 ≤ status ∧ status ≤ 299) ∨ decodable = false)) := by
  refine ⟨rfl, rfl, ?_, ?_⟩ <;>
  · unfold fetch_html status_is_success
    by_cases h1 : 200 ≤ status <;> by_cases h2 : status ≤ 299 <;> cases decodable <;>
      simp [h1, h2]

/-- C6 (counterexample): with previous watermark 5 and a page whose rows
have indices 6 and 5, the driver reaches ADVANCED and the rendered output
includes the bullet of the notice with index 5 — a previously-seen,
non-pinned notice — refuting "no previously-seen notice appears among the
rendered items". -/
theorem C6_renders_old_notice :
    (run_driver 5 "cm" "now" [sample_a, sample_b]).map RunOutput.stdout =
      some (some ("dist: 1개의 새 공지사항\n\n* A\n* B\n")) ∧
    sample_b.index ≤ 5 ∧ sample_b.index ≠ -1 ∧
    cm_item sample_b = "* B" ∧
    cm_item sample_b ∈ [sample_a, sample_b].map cm_item := by decide

/-- C6 (amended): when the driver reaches ADVANCED, each recognized mode
renders the entire fetched notice list — previously-seen and pinned rows
included — and only the commit-message count reflects the difference between
the latest index and the previous watermark, computed as a wrapping `i32`
subtraction. -/
theorem C6_renders_full_list (last v : Int) (now : String) (ns : List Notice)
    (hl : latest_index ns = some v) (hne : last ≠ v) :
    (run_driver last "xml" now ns).map RunOutput.stdout =
      some (some (compose_xml now ns ++ "\n")) ∧
    (run_driver last "md" now ns).map RunOutput.stdout =
      some (some (compose_md ns ++ "\n")) ∧
    (run_driver last "cm" now ns).map RunOutput.stdout =
      some (some (compose_commit_message ns (i32_sub v last) ++ "\n")) := by
  unfold run_driver
  rw [hl]
  simp [hne]

/-- Witness for C6 (amended): concrete run with previous watermark 5 and
latest index 6. -/
theorem C6_renders_full_list_witness :
    latest_index [sample_a, sample_b] = some 6 ∧
    ((run_driver 5 "xml" "ts" [sample_a, sample_b]).map RunOutput.stdout =
      some (some (compose_xml "ts" [sample_a, sample_b] ++ "\n")) ∧
     (run_driver 5 "md" "ts" [sample_a, sample_b]).map RunOutput.stdout =
      some (some (compose_md [sample_a, sample_b] ++ "\n")) ∧
     (run_driver 5 "cm" "ts" [sample_a, sample_b]).map RunOutput.stdout =
      some (some (compose_commit_message [sample_a, sample_b] (i32_sub 6 5) ++ "\n"))) :=
  ⟨by decide, C6_renders_full_list 5 6 "ts" [sample_a, sample_b] (by decide) (by decide)⟩

/-- C7: a row whose index cell text does not parse as an `i32` yields a
Notice with index `-1`; such a notice never contributes to the
latest-index computation, yet its bullet appears in every renderer's item
list; the parse failure is absorbed by the `-1` default, never a panic. -/
theorem C7_nonnumeric_index (base_url : String) (row : RawRow) (ns : List Notice)
    (h : parseI32 (parse_text row.index_frags) = none) :
    (parse_row base_url row).index = -1 ∧
    latest_index (parse_row base_url row :: ns) = latest_index ns ∧
    md_item (parse_row base_url row) ∈ (parse_row base_url row :: ns).map md_item ∧
    xml_item (parse_row base_url row) ∈ (parse_row base_url row :: ns).map xml_item ∧
    cm_item (parse_row base_url row) ∈ (parse_row base_url row :: ns).map cm_item := by
  have hidx : (parse_row base_url row).index = -1 := by
    unfold parse_row
    simp [h]
  refine ⟨hidx, ?_, ?_, ?_, ?_⟩
  · unfold latest_index
    rw [List.filter_cons]
    simp [hidx]
  · simp
  · simp
  · simp

/-- Witness for C7: the sample pinned row, whose index cell reads `공지`. -/
theorem C7_nonnumeric_index_witness :
    parseI32 (parse_text sample_row.index_frags) = none ∧
    ((parse_row sample_base sample_row).index = -1 ∧
     latest_index [parse_row sample_base sample_row] = latest_index [] ∧
     md_item (parse_row sample_base sample_row) ∈ [parse_row sample_base sample_row].map md_item ∧
     xml_item (parse_row sample_base sample_row) ∈ [parse_row sample_base sample_row].map xml_item ∧
     cm_item (parse_row sample_base sample_row) ∈ [parse_row sample_base sample_row].map cm_item) :=
  ⟨by decide, C7_nonnumeric_index sample_base sample_row [] (by decide)⟩

/-- C8: every string field of every extracted Notice is free of raw `<` and
`>` characters, and any `&` appears only as the start of one of the entities
produced by `encode_minimal` — the fields are entity-escaped exactly once,
whatever characters the source HTML contained. -/
theorem C8_fields_escaped (base_url : String) (row : RawRow) :
    (EscapedChunks (parse_row base_url row).title.data ∧
      '<' ∉ (parse_row base_url row).title.data ∧ '>' ∉ (parse_row base_url row).title.data) ∧
    (EscapedChunks (parse_row base_url row).author.data ∧
      '<' ∉ (parse_row base_url row).author.data ∧ '>' ∉ (parse_row base_url row).author.data) ∧
    (EscapedChunks (parse_row base_url row).category.data ∧
      '<' ∉ (parse_row base_url row).category.data ∧ '>' ∉ (parse_row base_url row).category.data) ∧
    (EscapedChunks (parse_row base_url row).link.data ∧
      '<' ∉ (parse_row base_url row).link.data ∧ '>' ∉ (parse_row base_url row).link.data) ∧
    (EscapedChunks (parse_row base_url row).expired_at.data ∧
      '<' ∉ (parse_row base_url row).expired_at.data ∧ '>' ∉ (parse_row base_url row).expired_at.data) := by
  have key : ∀ s : String, EscapedChunks (encode_minimal s).data ∧
      '<' ∉ (encode_minimal s).data ∧ '>' ∉ (encode_minimal s).data := by
    intro s
    have h := encode_minimal_escaped s
    exact ⟨h, (escapedChunks_no_raw h).1, (escapedChunks_no_raw h).2⟩
  exact ⟨key _, key _, key _, key _, key _⟩

/-- C9: the Markdown renderer emits the fixed header, then one bullet per
notice `* **[title](link)**` followed by the synthesized description
`[category] - author (~expired_at)`, with the title prefixed by the pin
marker when the index is `-1`; the separators are the two literal characters
backslash and `n` (doubled between items), not actual line breaks. -/
theorem C9_markdown_shape (ns : List Notice) :
    (compose_md ns =
      "# 미디어학과 최근 공지사항" ++ "\\n\\n" ++
        String.intercalate "\\n\\n"
          (ns.map (fun n =>
            "* **[" ++ (if n.index = -1 then "📌 " ++ n.title else n.title) ++ "](" ++
              n.link ++ ")**\\n  " ++
              ("[" ++ n.category ++ "] - " ++ n.author ++ " (~" ++ n.expired_at ++ ")")))) ∧
    ("\\n\\n" : String).data = ['\\', 'n', '\\', 'n'] ∧
    '\n' ∉ ("\\n\\n" : String).data :=
  ⟨rfl, by decide, by decide⟩

/-- C10 (counterexample): the XML renderer is not a function of the notice
list alone — two invocations on the same (empty) list at different render
times produce different outputs, refuting "no dependence on hidden state
such as the current time" for every renderer. -/
theorem C10_xml_depends_on_time :
    compose_xml "Mon, 01 Jan 2024 00:00:00 +0000" [] ≠
      compose_xml "Tue, 02 Jan 2024 00:00:00 +0000" [] := by decide

/-- C10 (amended): the Markdown and commit-message renderers are pure,
deterministic functions of their arguments; the XML renderer is
deterministic only once the render-time timestamp is fixed — the timestamp
enters the output exactly once, between the constant header and the
time-independent tail, and distinct outputs on the same notice list can
only arise from distinct timestamps. -/
theorem C10_renderers_purity (t u : String) (ns ms : List Notice) (c : Int) :
    (ns = ms → compose_md ns = compose_md ms) ∧
    (ns = ms → compose_commit_message ns c = compose_commit_message ms c) ∧
    compose_xml t ns = xml_header_head ++ t ++ xml_tail ns ∧
    (compose_xml t ns = compose_xml u ns → t = u) := by
  have shape : ∀ v : String, compose_xml v ns = xml_header_head ++ v ++ xml_tail ns := by
    intro v
    unfold compose_xml xml_header xml_tail
    simp [string_append_assoc]
  refine ⟨fun h => by rw [h], fun h => by rw [h], shape t, ?_⟩
  intro h
  rw [shape t, shape u] at h
  have hd := congrArg String.data h
  simp only [string_data_append, List.append_assoc] at hd
  have h1 := List.append_cancel_left hd
  have h2 := List.append_cancel_right h1
  exact string_data_inj h2

/-- Witness for C10 (amended): the Markdown purity and XML injectivity
conjuncts applied at concrete inputs. -/
theorem C10_renderers_purity_witness :
    compose_md [sample_a] = compose_md [sample_a] ∧ ("t0" : String) = "t0" :=
  ⟨(C10_renderers_purity "x" "y" [sample_a] [sample_a] 0).1 rfl,
   (C10_renderers_purity "t0" "t0" [sample_a] [sample_a] 0).2.2.2 rfl⟩
